import Mathlib

/-!
Verification of the acceleration-structure instance codec, buffer helpers and
COM-pointer creation of the gfx repository, as a shallow embedding in Lean.

Machine integers (Rust `u32`/`u64`) are modelled as `Nat` with explicit
`% 2 ^ 32` / `% 2 ^ 64` at the operations where Rust's wrapping semantics can
discard bits (left shift on `u32`, wrapping add/sub on `u64`).  Rust panics
(failed `assert!`, `unwrap` on `None`) are modelled by `Option`/dedicated
result constructors.  `f32` matrix entries are modelled as `ℚ`: the only
values the source ever writes are `0.0` and `1.0`, which are exact.
-/

/-- Source constant `TOP_24_MASK: u32 = 0xFFFFFF00` from `src/hal/src/acceleration_structure.rs`. -/
def TOP_24_MASK : Nat := 0xFFFFFF00

/-- Source constant `BOTTOM_8_MASK: u32 = 0xFF` from `src/hal/src/acceleration_structure.rs`. -/
def BOTTOM_8_MASK : Nat := 0xFF

/-- A 3x4 row-major affine transformation matrix
(`struct TransformMatrix([[f32; 4]; 3])`), entries modelled as `ℚ`. -/
abbrev TransformMatrix := Matrix (Fin 3) (Fin 4) ℚ

/-- Source `TransformMatrix::identity`: rows `[1,0,0,0]`, `[0,1,0,0]`, `[0,0,1,0]`. -/
def TransformMatrix.identity : TransformMatrix :=
  !![1, 0, 0, 0;
     0, 1, 0, 0;
     0, 0, 1, 0]

/-- Source `struct Instance` from `src/hal/src/acceleration_structure.rs` (the
`DeviceAddress(u64)` field is modelled as the wrapped `Nat`). -/
structure Instance where
  transform : TransformMatrix
  instance_custom_index_24_and_mask_8 : Nat
  instance_shader_binding_table_record_offset_24_and_flags_8 : Nat
  acceleration_structure_reference : Nat

/-- Source `Instance::new(blas)`. -/
def Instance.new (blas : Nat) : Instance where
  transform := TransformMatrix.identity
  instance_custom_index_24_and_mask_8 := 0
  instance_shader_binding_table_record_offset_24_and_flags_8 := 0
  acceleration_structure_reference := blas

/-- Source `Instance::fits_in_24_bits(n) = n < 2 << 24` (note: `2 << 24 = 2^25`,
exactly as written in the source). -/
def Instance.fits_in_24_bits (n : Nat) : Bool :=
  decide (n < 2 <<< 24)

/-- Source `Instance::replace_bits(destination, new_bits, new_bits_mask)
  = destination ^ ((destination ^ new_bits) & new_bits_mask)`. -/
def Instance.replace_bits (destination new_bits new_bits_mask : Nat) : Nat :=
  destination ^^^ ((destination ^^^ new_bits) &&& new_bits_mask)

/-- Source `Instance::set_instance_custom_index`.  The `assert!` is modelled by
`Option` (`none` = panic); `instance_custom_index << 8` is a `u32` shift,
which discards the bits shifted above bit 31, hence the `% 2 ^ 32`. -/
def Instance.set_instance_custom_index (i : Instance) (instance_custom_index : Nat) :
    Option Instance :=
  if Instance.fits_in_24_bits instance_custom_index then
    some { i with
      instance_custom_index_24_and_mask_8 :=
        Instance.replace_bits i.instance_custom_index_24_and_mask_8
          ((instance_custom_index <<< 8) % 2 ^ 32) TOP_24_MASK }
  else
    none

/-- Source `Instance::set_mask(mask: u8)`; the argument is a `u8`, so callers can
only pass values `< 256` (the theorems put that bound in hypotheses where it
matters; `replace_bits` with `BOTTOM_8_MASK` only lets 8 bits through anyway). -/
def Instance.set_mask (i : Instance) (mask : Nat) : Instance :=
  { i with
    instance_custom_index_24_and_mask_8 :=
      Instance.replace_bits i.instance_custom_index_24_and_mask_8 mask BOTTOM_8_MASK }

/-- Source `Instance::set_instance_shader_binding_table_record_offset`, with the
same `assert!`-as-`Option` and `u32`-shift modelling as the custom index. -/
def Instance.set_instance_shader_binding_table_record_offset
    (i : Instance) (instance_shader_binding_table_record_offset : Nat) :
    Option Instance :=
  if Instance.fits_in_24_bits instance_shader_binding_table_record_offset then
    some { i with
      instance_shader_binding_table_record_offset_24_and_flags_8 :=
        Instance.replace_bits i.instance_shader_binding_table_record_offset_24_and_flags_8
          ((instance_shader_binding_table_record_offset <<< 8) % 2 ^ 32) TOP_24_MASK }
  else
    none

/-- Source `InstanceFlags` (a `bitflags! \x7b struct InstanceFlags: u8 \x7d` type with defined
bits `0x1, 0x2, 0x4, 0x8`): a `u8` value that holds no undefined bit, i.e.
nothing outside `0x0F`. -/
structure InstanceFlags where
  bits : Nat
  wf : bits < 256 ∧ bits &&& 0xF0 = 0

/-- Source `InstanceFlags::TRIANGLE_FACING_CULL_DISABLE = 0x1`. -/
def InstanceFlags.TRIANGLE_FACING_CULL_DISABLE : InstanceFlags := ⟨0x1, by decide⟩

/-- Source `InstanceFlags::TRIANGLE_FRONT_COUNTERCLOCKWISE = 0x2`. -/
def InstanceFlags.TRIANGLE_FRONT_COUNTERCLOCKWISE : InstanceFlags := ⟨0x2, by decide⟩

/-- Source `InstanceFlags::FORCE_OPAQUE = 0x4`. -/
def InstanceFlags.FORCE_OPAQUE : InstanceFlags := ⟨0x4, by decide⟩

/-- Source `InstanceFlags::FORCE_NO_OPAQUE = 0x8`. -/
def InstanceFlags.FORCE_NO_OPAQUE : InstanceFlags := ⟨0x8, by decide⟩

/-- Generated `InstanceFlags::from_bits(b)` of the `bitflags` expansion: `Some` exactly when
`b` contains no bit outside the defined `0x0F` (for a `u8` argument,
`b & !0x0F == 0`, i.e. `b &&& 0xF0 = 0`). -/
def InstanceFlags.from_bits (b : Nat) : Option InstanceFlags :=
  if h : b < 256 ∧ b &&& 0xF0 = 0 then some ⟨b, h⟩ else none

/-- Source `Instance::set_flags(flags: InstanceFlags)`. -/
def Instance.set_flags (i : Instance) (flags : InstanceFlags) : Instance :=
  { i with
    instance_shader_binding_table_record_offset_24_and_flags_8 :=
      Instance.replace_bits i.instance_shader_binding_table_record_offset_24_and_flags_8
        flags.bits BOTTOM_8_MASK }

/-- The flags field of the `Debug` impl for `Instance`:
`InstanceFlags::from_bits((word & BOTTOM_8_MASK) as u8).unwrap()`.
The `unwrap` panics exactly when this is `none`. -/
def Instance.debug_flags_field (i : Instance) : Option InstanceFlags :=
  InstanceFlags.from_bits
    (i.instance_shader_binding_table_record_offset_24_and_flags_8 &&& BOTTOM_8_MASK)

/-- Predicate: the `Debug` impl for `Instance` panics iff the `unwrap` on the decoded flags fails. -/
def Instance.debug_fmt_panics (i : Instance) : Bool :=
  (Instance.debug_flags_field i).isNone

section BitLemmas

lemma testBit_TOP_24_MASK (k : Nat) :
    Nat.testBit TOP_24_MASK k = (decide (8 ≤ k) && decide (k < 32)) := by
  have h : TOP_24_MASK = (2 ^ 24 - 1) <<< 8 := by decide
  rw [h, Nat.testBit_shiftLeft, Nat.testBit_two_pow_sub_one]
  by_cases h8 : 8 ≤ k
  · simp only [h8, decide_True, Bool.true_and]
    rw [decide_eq_decide]
    omega
  · simp [h8]

lemma testBit_BOTTOM_8_MASK (k : Nat) :
    Nat.testBit BOTTOM_8_MASK k = decide (k < 8) := by
  have h : BOTTOM_8_MASK = 2 ^ 8 - 1 := by decide
  rw [h, Nat.testBit_two_pow_sub_one]

lemma replace_bits_testBit (d b m k : Nat) :
    (Instance.replace_bits d b m).testBit k =
      if m.testBit k then b.testBit k else d.testBit k := by
  simp only [Instance.replace_bits, Nat.testBit_xor, Nat.testBit_and]
  cases m.testBit k <;> cases d.testBit k <;> cases b.testBit k <;> rfl

end BitLemmas

/-- **C1.** For every `Instance` and every `i < 2 ^ 24`,
`set_instance_custom_index(i)` succeeds and reading the custom index back via
the `Debug` decode path `(word & 0xFFFFFF00) >> 8` yields exactly `i`. -/
theorem set_instance_custom_index_roundtrip (inst : Instance) (n : Nat) (h : n < 2 ^ 24) :
    (inst.set_instance_custom_index n).map
      (fun j => (j.instance_custom_index_24_and_mask_8 &&& TOP_24_MASK) >>> 8) = some n := by
  have hfits : Instance.fits_in_24_bits n = true := by
    simp only [Instance.fits_in_24_bits, decide_eq_true_eq, Nat.shiftLeft_eq]
    omega
  have hmod : (n <<< 8) % 2 ^ 32 = n <<< 8 := by
    apply Nat.mod_eq_of_lt
    rw [Nat.shiftLeft_eq]
    omega
  simp only [Instance.set_instance_custom_index, hfits, if_pos, Option.map_some', hmod]
  congr 1
  apply Nat.eq_of_testBit_eq
  intro k
  simp only [Nat.testBit_shiftRight, Nat.testBit_and, replace_bits_testBit,
    testBit_TOP_24_MASK, Nat.testBit_shiftLeft]
  by_cases hk : k < 24
  · have h1 : 8 ≤ 8 + k := by omega
    have h2 : 8 + k < 32 := by omega
    have h3 : 8 + k - 8 = k := by omega
    simp [h1, h2, h3]
  · have h2 : ¬ (8 + k < 32) := by omega
    have h4 : n.testBit k = false :=
      Nat.testBit_lt_two_pow
        (lt_of_lt_of_le h (Nat.pow_le_pow_right (by norm_num) (by omega)))
    simp [h2, h4]

/-- Witness for C1 at `inst = Instance.new 7`, `n = 5`. -/
theorem set_instance_custom_index_roundtrip_witness :
    ((Instance.new 7).set_instance_custom_index 5).map
      (fun j => (j.instance_custom_index_24_and_mask_8 &&& TOP_24_MASK) >>> 8) = some 5 :=
  set_instance_custom_index_roundtrip (Instance.new 7) 5 (by norm_num)

section FrameLemmas

lemma and_testBit_eq_zero {x y : Nat} (h : x &&& y = 0) (k : Nat) :
    (x.testBit k && y.testBit k) = false := by
  have h2 := congrArg (fun z => Nat.testBit z k) h
  simpa [Nat.testBit_and] using h2

lemma replace_bits_frame (w b m1 m2 : Nat) (h : m1 &&& m2 = 0) :
    Instance.replace_bits w b m1 &&& m2 = w &&& m2 := by
  apply Nat.eq_of_testBit_eq
  intro k
  simp only [Nat.testBit_and, replace_bits_testBit]
  have h1 := and_testBit_eq_zero h k
  by_cases hm : m1.testBit k
  · simp only [hm, Bool.true_and] at h1
    simp [hm, h1]
  · simp [hm]

lemma replace_bits_extract (w b m : Nat) :
    Instance.replace_bits w b m &&& m = b &&& m := by
  apply Nat.eq_of_testBit_eq
  intro k
  simp only [Nat.testBit_and, replace_bits_testBit]
  by_cases hm : m.testBit k <;> simp [hm]

end FrameLemmas

/-- **C3.** Each setter replaces only its targeted bit range:
`set_mask` keeps the top 24 bits of the custom-index word, `set_flags` keeps
the top 24 bits of the SBT-offset word, `set_instance_custom_index` keeps the
bottom 8 bits of the custom-index word, and
`set_instance_shader_binding_table_record_offset` keeps the bottom 8 bits of
the SBT-offset word; and no setter modifies the transform, the other packed
word, or the acceleration-structure reference. -/
theorem setters_only_touch_target_bits (i : Instance) :
    (∀ m, (i.set_mask m).instance_custom_index_24_and_mask_8 &&& TOP_24_MASK
        = i.instance_custom_index_24_and_mask_8 &&& TOP_24_MASK
      ∧ (i.set_mask m).transform = i.transform
      ∧ (i.set_mask m).instance_shader_binding_table_record_offset_24_and_flags_8
        = i.instance_shader_binding_table_record_offset_24_and_flags_8
      ∧ (i.set_mask m).acceleration_structure_reference = i.acceleration_structure_reference)
    ∧ (∀ f, (i.set_flags f).instance_shader_binding_table_record_offset_24_and_flags_8
          &&& TOP_24_MASK
        = i.instance_shader_binding_table_record_offset_24_and_flags_8 &&& TOP_24_MASK
      ∧ (i.set_flags f).transform = i.transform
      ∧ (i.set_flags f).instance_custom_index_24_and_mask_8
        = i.instance_custom_index_24_and_mask_8
      ∧ (i.set_flags f).acceleration_structure_reference = i.acceleration_structure_reference)
    ∧ (∀ n, Instance.fits_in_24_bits n = true →
        (i.set_instance_custom_index n).map (fun j =>
            (j.instance_custom_index_24_and_mask_8 &&& BOTTOM_8_MASK, j.transform,
             j.instance_shader_binding_table_record_offset_24_and_flags_8,
             j.acceleration_structure_reference))
          = some (i.instance_custom_index_24_and_mask_8 &&& BOTTOM_8_MASK, i.transform,
             i.instance_shader_binding_table_record_offset_24_and_flags_8,
             i.acceleration_structure_reference))
    ∧ (∀ n, Instance.fits_in_24_bits n = true →
        (i.set_instance_shader_binding_table_record_offset n).map (fun j =>
            (j.instance_shader_binding_table_record_offset_24_and_flags_8 &&& BOTTOM_8_MASK,
             j.transform, j.instance_custom_index_24_and_mask_8,
             j.acceleration_structure_reference))
          = some (i.instance_shader_binding_table_record_offset_24_and_flags_8
               &&& BOTTOM_8_MASK,
             i.transform, i.instance_custom_index_24_and_mask_8,
             i.acceleration_structure_reference)) := by
  refine ⟨fun m => ⟨?_, rfl, rfl, rfl⟩, fun f => ⟨?_, rfl, rfl, rfl⟩,
    fun n hn => ?_, fun n hn => ?_⟩
  · exact replace_bits_frame _ _ _ _ (by decide)
  · exact replace_bits_frame _ _ _ _ (by decide)
  · simp only [Instance.set_instance_custom_index, hn, if_pos, Option.map_some']
    exact congrArg some (by
      refine Prod.ext ?_ rfl
      exact replace_bits_frame _ _ _ _ (by decide))
  · simp only [Instance.set_instance_shader_binding_table_record_offset, hn, if_pos,
      Option.map_some']
    exact congrArg some (by
      refine Prod.ext ?_ rfl
      exact replace_bits_frame _ _ _ _ (by decide))

/-- Witness for C3 at `i = Instance.new 3`, `m = 5`, `f = FORCE_OPAQUE`, `n = 9`. -/
theorem setters_only_touch_target_bits_witness :
    (((Instance.new 3).set_mask 5).instance_custom_index_24_and_mask_8 &&& TOP_24_MASK
      = (Instance.new 3).instance_custom_index_24_and_mask_8 &&& TOP_24_MASK)
    ∧ (Instance.instance_shader_binding_table_record_offset_24_and_flags_8
          ((Instance.new 3).set_flags InstanceFlags.FORCE_OPAQUE) &&& TOP_24_MASK
      = (Instance.new 3).instance_shader_binding_table_record_offset_24_and_flags_8
          &&& TOP_24_MASK)
    ∧ Instance.fits_in_24_bits 9 = true
    ∧ ((Instance.new 3).set_instance_custom_index 9).map (fun j =>
          (j.instance_custom_index_24_and_mask_8 &&& BOTTOM_8_MASK, j.transform,
           j.instance_shader_binding_table_record_offset_24_and_flags_8,
           j.acceleration_structure_reference))
        = some ((Instance.new 3).instance_custom_index_24_and_mask_8 &&& BOTTOM_8_MASK,
           (Instance.new 3).transform,
           (Instance.new 3).instance_shader_binding_table_record_offset_24_and_flags_8,
           (Instance.new 3).acceleration_structure_reference)
    ∧ ((Instance.new 3).set_instance_shader_binding_table_record_offset 9).map (fun j =>
          (j.instance_shader_binding_table_record_offset_24_and_flags_8 &&& BOTTOM_8_MASK,
           j.transform, j.instance_custom_index_24_and_mask_8,
           j.acceleration_structure_reference))
        = some ((Instance.new 3).instance_shader_binding_table_record_offset_24_and_flags_8
             &&& BOTTOM_8_MASK,
           (Instance.new 3).transform, (Instance.new 3).instance_custom_index_24_and_mask_8,
           (Instance.new 3).acceleration_structure_reference) :=
  ⟨((setters_only_touch_target_bits (Instance.new 3)).1 5).1,
   ((setters_only_touch_target_bits (Instance.new 3)).2.1 InstanceFlags.FORCE_OPAQUE).1,
   by decide,
   (setters_only_touch_target_bits (Instance.new 3)).2.2.1 9 (by decide),
   (setters_only_touch_target_bits (Instance.new 3)).2.2.2 9 (by decide)⟩

/-- **C2** (code bug): the source precondition `fits_in_24_bits(n) = n < 2 << 24`
accepts `n = 2 ^ 24` (because `2 << 24 = 2 ^ 25`), so
`set_instance_custom_index(2 ^ 24)` does NOT fail; it silently stores a custom
index of `0` (the `u32` shift `n << 8` discards the high bit), contradicting
the documented 24-bit field width. -/
theorem fits_in_24_bits_is_off_by_one :
    Instance.fits_in_24_bits (2 ^ 24) = true
    ∧ ((Instance.new 0).set_instance_custom_index (2 ^ 24)).map
        (fun j => (j.instance_custom_index_24_and_mask_8 &&& TOP_24_MASK) >>> 8) = some 0
    ∧ ((Instance.new 0).set_instance_shader_binding_table_record_offset (2 ^ 24)).map
        (fun j =>
          (j.instance_shader_binding_table_record_offset_24_and_flags_8 &&& TOP_24_MASK) >>> 8)
        = some 0
    ∧ Instance.fits_in_24_bits (2 ^ 25) = false := by
  refine ⟨by decide, by decide, by decide, by decide⟩

/-- **C5.** For every device address `a`, `Instance::new(a)` has the identity
transform, both packed 32-bit words zero, and `acceleration_structure_reference = a`. -/
theorem instance_new_fields (a : Nat) :
    (Instance.new a).transform = TransformMatrix.identity
    ∧ (Instance.new a).instance_custom_index_24_and_mask_8 = 0
    ∧ (Instance.new a).instance_shader_binding_table_record_offset_24_and_flags_8 = 0
    ∧ (Instance.new a).acceleration_structure_reference = a :=
  ⟨rfl, rfl, rfl, rfl⟩

/-- One call to one of the four public `Instance` setters (the `set_mask`
argument is a `u8` in the source, so callers pass values `< 256`; the masked
write makes larger model values harmless). -/
inductive SetterOp where
  | set_instance_custom_index (n : Nat)
  | set_mask (m : Nat)
  | set_instance_shader_binding_table_record_offset (n : Nat)
  | set_flags (f : InstanceFlags)

/-- Effect of one setter call (`none` = the call's `assert!` panicked). -/
def Instance.apply_setter (i : Instance) : SetterOp → Option Instance
  | .set_instance_custom_index n => i.set_instance_custom_index n
  | .set_mask m => some (i.set_mask m)
  | .set_instance_shader_binding_table_record_offset n =>
      i.set_instance_shader_binding_table_record_offset n
  | .set_flags f => some (i.set_flags f)

/-- Effect of a sequence of setter calls. -/
def Instance.apply_setters (i : Instance) : List SetterOp → Option Instance
  | [] => some i
  | op :: ops => (i.apply_setter op).bind (fun j => j.apply_setters ops)

section PanicsLemmas

lemma testBit_0xF0 (k : Nat) :
    Nat.testBit 0xF0 k = (decide (4 ≤ k) && decide (k < 8)) := by
  have h : (0xF0 : Nat) = (2 ^ 4 - 1) <<< 4 := by decide
  rw [h, Nat.testBit_shiftLeft, Nat.testBit_two_pow_sub_one]
  by_cases h4 : 4 ≤ k
  · simp only [h4, decide_True, Bool.true_and]
    rw [decide_eq_decide]
    omega
  · simp [h4]

lemma replace_bits_and_eq_zero {w b e : Nat} (m : Nat) (hw : w &&& e = 0) (hb : b &&& e = 0) :
    Instance.replace_bits w b m &&& e = 0 := by
  apply Nat.eq_of_testBit_eq
  intro k
  simp only [Nat.testBit_and, replace_bits_testBit, Nat.zero_testBit]
  have h1 := and_testBit_eq_zero hw k
  have h2 := and_testBit_eq_zero hb k
  by_cases hm : m.testBit k <;> by_cases he : e.testBit k <;> simp_all

lemma shifted_word_and_0xF0_eq_zero (n : Nat) : ((n <<< 8) % 2 ^ 32) &&& 0xF0 = 0 := by
  apply Nat.eq_of_testBit_eq
  intro k
  simp only [Nat.testBit_and, Nat.testBit_mod_two_pow, Nat.testBit_shiftLeft,
    testBit_0xF0, Nat.zero_testBit]
  by_cases h8 : 8 ≤ k
  · have : ¬ (k < 8) := by omega
    simp [this]
  · simp [h8]

lemma low8_and_0xF0 (w : Nat) : (w &&& BOTTOM_8_MASK) &&& 0xF0 = w &&& 0xF0 := by
  rw [Nat.and_assoc]
  have h : BOTTOM_8_MASK &&& 0xF0 = 0xF0 := by decide
  rw [h]

lemma apply_setters_flags_invariant (ops : List SetterOp) :
    ∀ i j : Instance,
      i.instance_shader_binding_table_record_offset_24_and_flags_8 &&& 0xF0 = 0 →
      i.apply_setters ops = some j →
      j.instance_shader_binding_table_record_offset_24_and_flags_8 &&& 0xF0 = 0 := by
  induction ops with
  | nil =>
    intro i j hi hj
    simp only [Instance.apply_setters, Option.some.injEq] at hj
    rwa [← hj]
  | cons op ops ih =>
    intro i j hi hj
    simp only [Instance.apply_setters] at hj
    cases op with
    | set_instance_custom_index n =>
      simp only [Instance.apply_setter, Instance.set_instance_custom_index] at hj
      by_cases hf : Instance.fits_in_24_bits n
      · simp only [hf, if_pos, Option.some_bind] at hj
        refine ih _ j ?_ hj
        exact hi
      · simp [hf] at hj
    | set_mask m =>
      simp only [Instance.apply_setter, Option.some_bind] at hj
      refine ih _ j ?_ hj
      exact hi
    | set_instance_shader_binding_table_record_offset n =>
      simp only [Instance.apply_setter,
        Instance.set_instance_shader_binding_table_record_offset] at hj
      by_cases hf : Instance.fits_in_24_bits n
      · simp only [hf, if_pos, Option.some_bind] at hj
        refine ih _ j ?_ hj
        exact replace_bits_and_eq_zero TOP_24_MASK hi (shifted_word_and_0xF0_eq_zero n)
      · simp [hf] at hj
    | set_flags f =>
      simp only [Instance.apply_setter, Option.some_bind] at hj
      refine ih _ j ?_ hj
      exact replace_bits_and_eq_zero BOTTOM_8_MASK hi f.wf.2

end PanicsLemmas

/-- **C9.** Formatting an `Instance` with its `Debug` impl panics iff the
bottom 8 bits of the SBT-offset/flags word hold a bit outside the four
defined `InstanceFlags` bits (`0x0F`); and `Debug` never panics on an
Instance produced by `Instance::new` followed by any sequence of four-setter
calls that itself completed without panicking. -/
theorem debug_fmt_panics_characterization :
    (∀ i : Instance, Instance.debug_fmt_panics i = true ↔
      i.instance_shader_binding_table_record_offset_24_and_flags_8 &&& 0xF0 ≠ 0)
    ∧ (∀ (a : Nat) (ops : List SetterOp) (j : Instance),
        (Instance.new a).apply_setters ops = some j →
        Instance.debug_fmt_panics j = false) := by
  have hchar : ∀ i : Instance, Instance.debug_fmt_panics i = true ↔
      i.instance_shader_binding_table_record_offset_24_and_flags_8 &&& 0xF0 ≠ 0 := by
    intro i
    have hlt : (i.instance_shader_binding_table_record_offset_24_and_flags_8
        &&& BOTTOM_8_MASK) < 256 := by
      have : BOTTOM_8_MASK < 2 ^ 8 := by decide
      simpa using Nat.and_lt_two_pow
        i.instance_shader_binding_table_record_offset_24_and_flags_8 this
    unfold Instance.debug_fmt_panics Instance.debug_flags_field InstanceFlags.from_bits
    split
    · rename_i h
      constructor
      · intro hfalse
        simp at hfalse
      · intro hne
        exact absurd (by rw [← low8_and_0xF0]; exact h.2) hne
    · rename_i h
      constructor
      · intro _ hzero
        exact h ⟨hlt, by rw [low8_and_0xF0]; exact hzero⟩
      · intro _
        rfl
  refine ⟨hchar, fun a ops j hj => ?_⟩
  have hinv := apply_setters_flags_invariant ops (Instance.new a) j (by simp [Instance.new]) hj
  have := (hchar j).not
  simp only [ne_eq, not_not, Bool.not_eq_true] at this
  exact this.mpr hinv

/-- Witness for C9: `Instance.new 2` followed by all four setters yields the
concrete record `⟨identity, 259, 260, 2⟩`, and `Debug` does not panic on it. -/
theorem debug_fmt_panics_characterization_witness :
    (Instance.new 2).apply_setters
        [SetterOp.set_flags InstanceFlags.FORCE_OPAQUE, SetterOp.set_mask 3,
         SetterOp.set_instance_custom_index 1,
         SetterOp.set_instance_shader_binding_table_record_offset 1]
      = some (Instance.mk TransformMatrix.identity 259 260 2)
    ∧ Instance.debug_fmt_panics (Instance.mk TransformMatrix.identity 259 260 2) = false :=
  ⟨rfl, debug_fmt_panics_characterization.2 2
    [SetterOp.set_flags InstanceFlags.FORCE_OPAQUE, SetterOp.set_mask 3,
     SetterOp.set_instance_custom_index 1,
     SetterOp.set_instance_shader_binding_table_record_offset 1]
    (Instance.mk TransformMatrix.identity 259 260 2) rfl⟩

/-- Size and alignment of a Rust type, in bytes. -/
structure RustLayout where
  size : Nat
  align : Nat

/-- Layout of `f32` (4 bytes, 4-aligned on every target the crate supports). -/
def f32_layout : RustLayout := ⟨4, 4⟩

/-- Layout of `u32`. -/
def u32_layout : RustLayout := ⟨4, 4⟩

/-- Layout of `u64` (8 bytes, 8-aligned on the 64-bit targets the backends require). -/
def u64_layout : RustLayout := ⟨8, 8⟩

/-- Layout of a Rust array `[T; n]`: `n` consecutive elements, element alignment. -/
def array_layout (l : RustLayout) (n : Nat) : RustLayout := ⟨l.size * n, l.align⟩

/-- Round `offset` up to the next multiple of `align`. -/
def align_to (offset align : Nat) : Nat := (offset + align - 1) / align * align

/-- Layout of a `#[repr(C)]` struct per the Rust reference (C layout): fields
in declaration order, each placed at the next offset aligned to its own
alignment; the struct alignment is the maximum field alignment and the struct
size is the end offset rounded up to that alignment. -/
def repr_c (fields : List RustLayout) : RustLayout :=
  let align := fields.foldl (fun a f => max a f.align) 1
  let off := fields.foldl (fun off f => align_to off f.align + f.size) 0
  ⟨align_to off align, align⟩

/-- Layout of `TransformMatrix`: `#[repr(transparent)]` over `[[f32; 4]; 3]`. -/
def TransformMatrix.rust_layout : RustLayout := array_layout (array_layout f32_layout 4) 3

/-- Layout of `AabbPositions`: `#[repr(C)] { min: [f32; 3], max: [f32; 3] }`. -/
def AabbPositions.rust_layout : RustLayout :=
  repr_c [array_layout f32_layout 3, array_layout f32_layout 3]

/-- Layout of `Instance`: `#[repr(C)]` with a `TransformMatrix`, two `u32`
packed words and a `#[repr(transparent)] DeviceAddress(u64)`. -/
def Instance.rust_layout : RustLayout :=
  repr_c [TransformMatrix.rust_layout, u32_layout, u32_layout, u64_layout]

/-- **C4.** Struct size invariants asserted by `struct_size_tests`:
`TransformMatrix` is 48 bytes, `AabbPositions` 24 bytes, `Instance` 64 bytes,
and two-element arrays are exactly double (no padding). -/
theorem struct_size_invariants :
    TransformMatrix.rust_layout.size = 48
    ∧ (array_layout TransformMatrix.rust_layout 2).size = 96
    ∧ AabbPositions.rust_layout.size = 24
    ∧ (array_layout AabbPositions.rust_layout 2).size = 48
    ∧ Instance.rust_layout.size = 64
    ∧ (array_layout Instance.rust_layout 2).size = 128 := by
  refine ⟨rfl, rfl, rfl, rfl, rfl, rfl⟩

/-- Modelled from the spec: the repository defines `TransformMatrix` and
`TransformMatrix::identity()` but contains no code applying a transform to a
point; spec §8 states "`TransformMatrix::identity()` composed with any point
`p` yields `p` unchanged".  Application of a 3x4 row-major affine matrix to a
3D point is the standard affine action: component `r` of the result is
`t r 0 * p 0 + t r 1 * p 1 + t r 2 * p 2 + t r 3` (last column = translation). -/
def TransformMatrix.apply_point (t : TransformMatrix) (p : Fin 3 → ℚ) : Fin 3 → ℚ :=
  fun r => t r 0 * p 0 + t r 1 * p 1 + t r 2 * p 2 + t r 3

/-- **C8.** Applying `TransformMatrix::identity()` as an affine transform to
any point yields the point unchanged. -/
theorem identity_apply_point (p : Fin 3 → ℚ) :
    TransformMatrix.identity.apply_point p = p := by
  funext r
  fin_cases r <;>
    simp [TransformMatrix.apply_point, TransformMatrix.identity,
      Matrix.vecHead, Matrix.vecTail]

/-- Result of `ComPtr::create_with` (`src/backend/dx11/src/com_ptr.rs`):
`ok p` wraps the non-null pointer `p`, `err hr` is the `Err(hr)` return, and
`panicked` is the failed `assert!(!new_ptr.is_null())`.  Pointers are
modelled as `Nat` with `0` = null; `HRESULT` as `Int` (`SUCCEEDED(hr)` is
`hr >= 0`). -/
inductive CreateWithResult where
  | ok (ptr : Nat)
  | err (hr : Int)
  | panicked
deriving DecidableEq

/-- Source `ComPtr::create_with(f)`: `new_ptr` starts as null, `f` runs once
receiving the pointer slot and returning an `HRESULT`.  The callback is
modelled as a function from the initial slot value to the (written slot
value, returned `HRESULT`) pair. -/
def ComPtr.create_with (f : Nat → Nat × Int) : CreateWithResult :=
  let r := f 0
  let new_ptr := r.1
  let hr := r.2
  if ¬ (0 ≤ hr) then
    CreateWithResult.err hr
  else if new_ptr = 0 then
    CreateWithResult.panicked
  else
    CreateWithResult.ok new_ptr

/-- **C10.** `ComPtr::create_with(f)` returns `Err(hr)` exactly when the
`HRESULT` returned by `f` is a failure code (`hr < 0`); on a success code it
returns a `ComPtr` wrapping exactly the pointer `f` wrote; and it panics when
`f` returns a success code but leaves the output pointer null. -/
theorem create_with_spec (f : Nat → Nat × Int) :
    (ComPtr.create_with f = CreateWithResult.err (f 0).2 ↔ (f 0).2 < 0)
    ∧ (0 ≤ (f 0).2 → (f 0).1 ≠ 0 → ComPtr.create_with f = CreateWithResult.ok (f 0).1)
    ∧ (0 ≤ (f 0).2 → (f 0).1 = 0 → ComPtr.create_with f = CreateWithResult.panicked) := by
  unfold ComPtr.create_with
  refine ⟨?_, fun hhr hptr => ?_, fun hhr hptr => ?_⟩
  · by_cases hhr : 0 ≤ (f 0).2
    · have : ¬ (f 0).2 < 0 := by omega
      by_cases hptr : (f 0).1 = 0 <;> simp [hhr, hptr, this]
    · have : (f 0).2 < 0 := by omega
      simp [hhr, this]
  · simp [hhr, hptr]
  · simp [hhr, hptr]

/-- Witness for C10 at the callback that writes pointer `42` and returns `S_OK = 0`. -/
theorem create_with_spec_witness :
    (0 : Int) ≤ 0 ∧ (42 : Nat) ≠ 0
    ∧ ComPtr.create_with (fun _ => (42, 0)) = CreateWithResult.ok 42 :=
  ⟨by decide, by decide,
    (create_with_spec (fun _ => (42, 0))).2.1 (by decide) (by decide)⟩

/-- Modelled from the spec: `Buffer::new(size)` lives in
`src/backend/empty/src/buffer.rs`, which is not among the provided sources;
`lib.rs` reads `buffer.size` in `get_buffer_requirements`, and the spec says a
`Buffer` is "a sized, usage-flagged GPU resource handle", so the model records
the creation size. -/
structure Buffer where
  size : Nat

/-- Modelled from the spec: `Memory::allocate` lives in
`src/backend/empty/src/memory.rs`, which is not among the provided sources;
per the spec, `Memory` "is a typed allocation", and the empty backend is the
blanket no-op mock, so allocation succeeds recording the requested size. -/
structure Memory where
  size : Nat

/-- Record type of `hal::memory::Requirements` as used by the example:
`size`, `alignment`, `type_mask`. -/
structure Requirements where
  size : Nat
  alignment : Nat
  type_mask : Nat

/-- Record of an `adapter::MemoryType` reduced to the only property the
example consults: whether `properties` contains `CPU_VISIBLE`. -/
structure MemoryType where
  cpu_visible : Bool

/-- Source `Device::create_buffer` of the empty backend
(`src/backend/empty/src/lib.rs`): unconditionally `Ok(Buffer::new(size))`.
The `usage` bitflags argument is ignored by the source; `none` would be the
`Err(CreationError)` case, which this backend never produces. -/
def Device.create_buffer (size : Nat) (usage : Nat) : Option Buffer :=
  some ⟨size⟩

/-- Source `Device::get_buffer_requirements` of the empty backend: size is the
buffer's size, alignment `1`, `type_mask = !0` (all memory types allowed; the
mask width is the `u32` of `hal::memory::Requirements`, not load-bearing). -/
def Device.get_buffer_requirements (b : Buffer) : Requirements :=
  ⟨b.size, 1, 2 ^ 32 - 1⟩

/-- Modelled from the spec: `Memory::allocate(memory_type, size)` body is not
among the provided sources; the empty mock backend succeeds, recording the
requested size (`none` would be `Err(AllocationError)`). -/
def Device.allocate_memory (memory_type : Nat) (size : Nat) : Option Memory :=
  some ⟨size⟩

/-- Source `Device::bind_buffer_memory` of the empty backend: always `Ok(())`. -/
def Device.bind_buffer_memory (m : Memory) (offset : Nat) (b : Buffer) : Option Unit :=
  some ()

/-- Upload-type search of `create_empty_buffer`
(`examples/ray-tracing/main.rs`): the position of the first memory type whose
bit is set in `type_mask` and which is CPU-visible. -/
def find_upload_type (type_mask : Nat) (memory_types : List MemoryType) : Option Nat :=
  (memory_types.enum.find?
      (fun p => decide (type_mask &&& (1 <<< p.1) ≠ 0) && p.2.cpu_visible)).map (·.1)

/-- Source `create_empty_buffer` (`examples/ray-tracing/main.rs`):
`assert_ne!(buffer_len, 0)`, then
`padded_buffer_len = ((buffer_len + non_coherent_alignment - 1)
/ non_coherent_alignment) * non_coherent_alignment` in `u64` arithmetic
(wrapping add and sub modelled with `% 2 ^ 64`; division by zero panics, so
`non_coherent_alignment = 0` is `none`), then `create_buffer`,
`get_buffer_requirements`, the upload-type search (its `unwrap` panics when
no type matches), `allocate_memory(upload_type, buffer_req.size)` and
`bind_buffer_memory` — every `unwrap` modelled by `Option.bind`. -/
def create_empty_buffer (non_coherent_alignment : Nat) (memory_types : List MemoryType)
    (usage : Nat) (size : Nat) : Option (Buffer × Memory) :=
  if size = 0 then none
  else if non_coherent_alignment = 0 then none
  else
    (Device.create_buffer
        ((((size + non_coherent_alignment) % 2 ^ 64 + (2 ^ 64 - 1)) % 2 ^ 64
            / non_coherent_alignment * non_coherent_alignment) % 2 ^ 64)
        usage).bind fun buffer =>
      (find_upload_type (Device.get_buffer_requirements buffer).type_mask memory_types).bind
        fun upload_type =>
          (Device.allocate_memory upload_type (Device.get_buffer_requirements buffer).size).bind
            fun memory =>
              (Device.bind_buffer_memory memory 0 buffer).bind fun _ =>
                some (buffer, memory)

/-- **C6** (amended: requires `s + a ≤ 2 ^ 64`, i.e. no `u64` overflow in the
padding computation).  For every size `s > 0` and alignment `a > 0` with
`s + a ≤ 2 ^ 64`, and any memory-type list containing a usable CPU-visible
type, `create_empty_buffer` creates its buffer with padded length
`((s + a - 1) / a) * a` and binds memory of that same size, and that length
is the least multiple of `a` that is `≥ s` (it is divisible by `a`, at least
`s`, and below `s + a`). -/
theorem create_empty_buffer_pads_to_alignment
    (a : Nat) (mts : List MemoryType) (u s : Nat)
    (hs : 0 < s) (ha : 0 < a) (hof : s + a ≤ 2 ^ 64)
    (hmt : (find_upload_type (2 ^ 32 - 1) mts).isSome = true) :
    (create_empty_buffer a mts u s).map (fun r => (r.1.size, r.2.size))
        = some ((s + a - 1) / a * a, (s + a - 1) / a * a)
    ∧ (s + a - 1) / a * a % a = 0
    ∧ s ≤ (s + a - 1) / a * a
    ∧ (s + a - 1) / a * a < s + a := by
  have hs0 : ¬ (s = 0) := by omega
  have ha0 : ¬ (a = 0) := by omega
  have ht2 : ((s + a) % 2 ^ 64 + (2 ^ 64 - 1)) % 2 ^ 64 = s + a - 1 := by
    rcases Nat.lt_or_ge (s + a) (2 ^ 64) with hlt | hge
    · rw [Nat.mod_eq_of_lt hlt]
      have h1 : s + a + (2 ^ 64 - 1) = (s + a - 1) + 2 ^ 64 := by omega
      rw [h1, Nat.add_mod_right, Nat.mod_eq_of_lt (by omega)]
    · have heq : s + a = 2 ^ 64 := le_antisymm hof hge
      rw [heq, Nat.mod_self, Nat.zero_add, Nat.mod_eq_of_lt (by omega)]
  have hle : (s + a - 1) / a * a ≤ s + a - 1 := Nat.div_mul_le_self _ _
  have hpadmod : (s + a - 1) / a * a % 2 ^ 64 = (s + a - 1) / a * a :=
    Nat.mod_eq_of_lt (by omega)
  obtain ⟨t, ht⟩ := Option.isSome_iff_exists.mp hmt
  have heval : create_empty_buffer a mts u s =
      some (⟨(s + a - 1) / a * a⟩, ⟨(s + a - 1) / a * a⟩) := by
    unfold create_empty_buffer
    rw [if_neg hs0, if_neg ha0, ht2, hpadmod]
    simp only [Device.create_buffer, Option.some_bind, Device.get_buffer_requirements]
    rw [ht]
    simp only [Option.some_bind, Device.allocate_memory, Device.bind_buffer_memory]
  refine ⟨by rw [heval]; rfl, Nat.mul_mod_left _ _, ?_⟩
  have hsplit : s + a - 1 = (s - 1) + a := by omega
  rw [hsplit, Nat.add_div_right _ ha]
  have he := Nat.div_add_mod (s - 1) a
  have her : (s - 1) % a < a := Nat.mod_lt _ ha
  have hmul : ((s - 1) / a + 1) * a = a * ((s - 1) / a) + a := by ring
  rw [hmul]
  omega

/-- Witness for C6 at `a = 256`, `s = 100`, one CPU-visible memory type:
the bound memory size is `256`. -/
theorem create_empty_buffer_pads_to_alignment_witness :
    (0 < 100 ∧ 0 < 256 ∧ 100 + 256 ≤ 2 ^ 64
      ∧ (find_upload_type (2 ^ 32 - 1) [MemoryType.mk true]).isSome = true)
    ∧ (create_empty_buffer 256 [MemoryType.mk true] 0 100).map
        (fun r => (r.1.size, r.2.size)) = some (256, 256) :=
  ⟨⟨by decide, by decide, by decide, by decide⟩,
    (create_empty_buffer_pads_to_alignment 256 [MemoryType.mk true] 0 100
      (by decide) (by decide) (by decide) (by decide)).1⟩

/-- Counterexample for C6 as stated: at `s = 2 ^ 64 - 1`, `a = 256` the `u64`
padding computation wraps (`s + a - 1` overflows), the created buffer and the
bound memory have size `0`, which is not a multiple of `256` that is `≥ s`. -/
theorem create_empty_buffer_overflow_counterexample :
    (create_empty_buffer 256 [MemoryType.mk true] 0 (2 ^ 64 - 1)).map
        (fun r => (r.1.size, r.2.size)) = some (0, 0)
    ∧ ¬ (2 ^ 64 - 1 ≤ 0) := by
  exact ⟨by decide, by decide⟩

/-- Counterexample for C7 as stated: in the empty backend,
`create_buffer(0, usage)` does not fail — at `usage = 0` it returns
`Ok(Buffer::new(0))`. -/
theorem create_buffer_zero_size_succeeds :
    Device.create_buffer 0 0 = some (Buffer.mk 0) := rfl

/-- **C7** (amended): the empty backend's `create_buffer` never fails — for
every size and usage it returns `Ok(Buffer::new(size))`; the zero-size
rejection lives in the caller instead: `create_empty_buffer` asserts
`size ≠ 0` and produces no buffer for size `0`. -/
theorem create_buffer_never_fails (size usage : Nat) :
    Device.create_buffer size usage = some (Buffer.mk size)
    ∧ ∀ (a : Nat) (mts : List MemoryType), create_empty_buffer a mts usage 0 = none :=
  ⟨rfl, fun a mts => rfl⟩
